import Mathlib

/-!
Verification development for the OCR post-processing pipeline
(core modules `output_parser.py`, `schema_extractor.py`,
`semantic_extractor.py`, `structured_output.py`).

The Python code drives almost all of its behaviour through `re`.  The
statically known regular expressions of the source are embedded deeply:
an `RE` syntax tree together with a backtracking matcher that follows
Python `re` semantics on the fragment the source uses (leftmost match,
greedy/lazy quantifiers with backtracking, ordered alternation, a single
capture group, `\b` word boundaries, `^`/`$` without MULTILINE).
Dynamically assembled pattern strings (the schema extractor builds its
patterns at runtime from field names, and callers may pass arbitrary
custom patterns) are modelled by an oracle `reSearch : String → String →
Option String` standing for `re.search` (returning group 1 when the
pattern has a group, else group 0), and `json.loads` by an oracle
`jsonLoads`.  External HTML/CSV libraries (BeautifulSoup, pandas) are
likewise abstracted: table extraction is a function parameter, and the
line-item parser receives the list of rows (cell strings) that
`soup.find_all('tr')` produces.
-/

namespace Nanonets

/-- Matcher state: the previously consumed character (for `\b` and `^`),
the remaining input, and the last value captured by a group. -/
structure MSt where
  prev : Option Char
  rest : List Char
  cap : Option (List Char)

/-- Regular-expression syntax for the fragment of Python `re` that the
statically known patterns of the source use.  `alt` is ordered (left
branch preferred), `star`/`opt` are greedy, `lazyStar` is lazy, `grp`
is the single capture group, `wordB` is `\b`, `atStart` is `^` and
`atEnd` is `$` (no MULTILINE: `$` matches at the end of input or just
before a final newline). -/
inductive RE where
  | eps
  | cls (p : Char → Bool)
  | seq (a b : RE)
  | alt (a b : RE)
  | star (r : RE)
  | lazyStar (r : RE)
  | grp (r : RE)
  | wordB
  | atStart
  | atEnd

/-- Python `\w` (ASCII view, which covers every character the modelled
documents use): letters, digits and underscore. -/
def isWordChar (c : Char) : Bool :=
  c.isAlpha || c.isDigit || c = '_'

/-- Backtracking matcher in continuation-passing style.  The fuel only
bounds recursion depth; it is chosen large enough (`matchFuel`) that it
never runs out on the inputs considered. -/
def matchRE : Nat → RE → MSt → (MSt → Option MSt) → Option MSt
  | 0, _, _, _ => none
  | fuel + 1, r, st, k =>
    match r with
    | .eps => k st
    | .cls p =>
      match st.rest with
      | [] => none
      | c :: cs => if p c then k { prev := some c, rest := cs, cap := st.cap } else none
    | .seq a b => matchRE fuel a st (fun st1 => matchRE fuel b st1 k)
    | .alt a b =>
      match matchRE fuel a st k with
      | some res => some res
      | none => matchRE fuel b st k
    | .star r =>
      match matchRE fuel r st
          (fun st1 =>
            if st1.rest.length < st.rest.length then matchRE fuel (.star r) st1 k
            else none) with
      | some res => some res
      | none => k st
    | .lazyStar r =>
      match k st with
      | some res => some res
      | none =>
        matchRE fuel r st
          (fun st1 =>
            if st1.rest.length < st.rest.length then matchRE fuel (.lazyStar r) st1 k
            else none)
    | .grp r =>
      matchRE fuel r st
        (fun st1 =>
          k { st1 with cap := some (st.rest.take (st.rest.length - st1.rest.length)) })
    | .wordB =>
      let pw := match st.prev with | some c => isWordChar c | none => false
      let nw := match st.rest with | c :: _ => isWordChar c | [] => false
      if pw ≠ nw then k st else none
    | .atStart => if st.prev = none then k st else none
    | .atEnd =>
      match st.rest with
      | [] => k st
      | ['\n'] => k st
      | _ => none

/-- Fuel that is comfortably larger than the recursion depth any of the
embedded patterns can need on an input of length `n`. -/
def matchFuel (n : Nat) : Nat := 200 * (n + 2) + 2000

/-- Try the pattern at the current position. -/
def reMatchAt (r : RE) (prev : Option Char) (rest : List Char) : Option MSt :=
  matchRE (matchFuel rest.length) r { prev := prev, rest := rest, cap := none } some

/-- What a successful match contributes to `re.findall`: group 1 if the
pattern has a capture group, else the whole match. -/
def matchValue (st : MSt) (rest : List Char) (consumed : Nat) : String :=
  match st.cap with
  | some g => String.mk g
  | none => String.mk (rest.take consumed)

/-- `re.findall`/`re.finditer` scan: leftmost non-overlapping matches,
advancing one character after a failed position.  (All embedded patterns
consume at least one character, so the empty-match branch is inert.) -/
def reFindAllGo : Nat → RE → Option Char → List Char → List String
  | 0, _, _, _ => []
  | fuel + 1, r, prev, rest =>
    match reMatchAt r prev rest with
    | some st1 =>
      let consumed := rest.length - st1.rest.length
      if consumed = 0 then
        match rest with
        | [] => []
        | c :: cs => reFindAllGo fuel r (some c) cs
      else
        matchValue st1 rest consumed :: reFindAllGo fuel r st1.prev st1.rest
    | none =>
      match rest with
      | [] => []
      | c :: cs => reFindAllGo fuel r (some c) cs

def reFindAll (r : RE) (s : String) : List String :=
  reFindAllGo (s.length + 1) r none s.toList

/-- `re.search`: first position at which the pattern matches. -/
def reSearchGo : Nat → RE → Option Char → List Char → Option String
  | 0, _, _, _ => none
  | fuel + 1, r, prev, rest =>
    match reMatchAt r prev rest with
    | some st1 => some (matchValue st1 rest (rest.length - st1.rest.length))
    | none =>
      match rest with
      | [] => none
      | c :: cs => reSearchGo fuel r (some c) cs

def reSearchRE (r : RE) (s : String) : Option String :=
  reSearchGo (s.length + 1) r none s.toList

/-- `re.split`: cut the input at every leftmost non-overlapping match. -/
def reSplitGo : Nat → RE → Option Char → List Char → List Char → List String
  | 0, _, _, acc, rest => [String.mk (acc.reverse ++ rest)]
  | fuel + 1, r, prev, acc, rest =>
    match reMatchAt r prev rest with
    | some st1 =>
      let consumed := rest.length - st1.rest.length
      if consumed = 0 then
        match rest with
        | [] => [String.mk acc.reverse]
        | c :: cs => reSplitGo fuel r (some c) (c :: acc) cs
      else
        String.mk acc.reverse :: reSplitGo fuel r st1.prev [] st1.rest
    | none =>
      match rest with
      | [] => [String.mk acc.reverse]
      | c :: cs => reSplitGo fuel r (some c) (c :: acc) cs

def reSplit (r : RE) (s : String) : List String :=
  reSplitGo (s.length + 1) r none [] s.toList

/-! Pattern-building helpers. -/

/-- Literal character. -/
def reLit (c : Char) : RE := .cls (fun x => x = c)

/-- Literal string (sequence of literal characters). -/
def reStr (s : String) : RE :=
  s.toList.foldr (fun c acc => .seq (reLit c) acc) .eps

/-- Case-insensitive literal string (for patterns compiled with
`re.IGNORECASE`). -/
def reStrCI (s : String) : RE :=
  s.toList.foldr (fun c acc => .seq (.cls (fun x => x.toLower = c.toLower)) acc) .eps

/-- `r+` (greedy). -/
def rePlus (r : RE) : RE := .seq r (.star r)

/-- `r?` (greedy). -/
def reOpt (r : RE) : RE := .alt r .eps

/-- `r??`-style lazy option (used for `\*?` inside the LaTeX
environment delimiters). -/
def reLazyOpt (r : RE) : RE := .alt .eps r

/-- Ordered alternation over a non-empty list, left to right. -/
def reAlts : List RE → RE
  | [] => .eps
  | [r] => r
  | r :: rs => .alt r (reAlts rs)

def reDigit : RE := .cls Char.isDigit

def reUpper : RE := .cls (fun c => 'A' ≤ c && c ≤ 'Z')

def reLower : RE := .cls (fun c => 'a' ≤ c && c ≤ 'z')

/-- Python `\s` on the ASCII whitespace the documents use. -/
def reWs : RE := .cls Char.isWhitespace

/-- `.` with `re.DOTALL`. -/
def reAny : RE := .cls (fun _ => true)

/-- `.` without `re.DOTALL` (anything but a newline). -/
def reAnyNoNl : RE := .cls (fun c => c ≠ '\n')

/-- Python `str.strip()`: drop whitespace from both ends. -/
def pyStrip (s : String) : String :=
  String.mk (((s.toList.dropWhile Char.isWhitespace).reverse.dropWhile
    Char.isWhitespace).reverse)

/-- Python `str.lower()`: per-character lowering. -/
def pyLower (s : String) : String :=
  String.mk (s.toList.map Char.toLower)

/-- Split on every occurrence of a separator character, keeping empty
segments (Python `str.split(sep)` for a one-character separator). -/
def splitCharsOn (sep : Char) : List Char → List (List Char)
  | [] => [[]]
  | c :: cs =>
    if c = sep then [] :: splitCharsOn sep cs
    else
      match splitCharsOn sep cs with
      | [] => [[c]]
      | seg :: segs => (c :: seg) :: segs

/-- Python `str.split(sep)` for a one-character separator. -/
def pySplitOn (sep : Char) (s : String) : List String :=
  (splitCharsOn sep s.toList).map String.mk

/-- Split on every character satisfying the predicate, keeping empty
segments; filtering out the empty segments afterwards gives Python's
no-argument `str.split()`. -/
def splitCharsWhen (p : Char → Bool) : List Char → List (List Char)
  | [] => [[]]
  | c :: cs =>
    if p c then [] :: splitCharsWhen p cs
    else
      match splitCharsWhen p cs with
      | [] => [[c]]
      | seg :: segs => (c :: seg) :: segs

/-- Python `str.split()` (no argument): whitespace runs separate the
words, empties are dropped. -/
def pySplitWs (s : String) : List String :=
  ((splitCharsWhen Char.isWhitespace s.toList).map String.mk).filter (fun w => w ≠ "")

/-- Replace every occurrence of one character by a string (Python
`str.replace` with a one-character needle). -/
def replaceChar (target : Char) (repl : String) (s : String) : String :=
  String.mk (s.toList.flatMap (fun c => if c = target then repl.toList else [c]))

/-- Left-to-right non-overlapping replacement (fuelled; the fuel is the
input length plus one, enough since the needle is non-empty). -/
def replaceListGo (needle repl : List Char) : Nat → List Char → List Char
  | 0, rest => rest
  | fuel + 1, rest =>
    if needle.isPrefixOf rest then
      repl ++ replaceListGo needle repl fuel (rest.drop needle.length)
    else
      match rest with
      | [] => []
      | c :: cs => c :: replaceListGo needle repl fuel cs

/-- Python `str.replace` for a non-empty needle (the source only calls
it on a matched SKU token, which is never empty). -/
def pyReplace (s needle repl : String) : String :=
  if needle = "" then s
  else String.mk (replaceListGo needle.toList repl.toList (s.length + 1) s.toList)

/-- Character-list infix test, used for Python's `in` on strings. -/
def isInfixChars (needle : List Char) : List Char → Bool
  | [] => needle.isEmpty
  | c :: cs => needle.isPrefixOf (c :: cs) || isInfixChars needle cs

/-- Python `in` on strings: substring containment. -/
def pyInStr (needle haystack : String) : Bool :=
  isInfixChars needle.toList haystack.toList

/-! ## `core/output_parser.py` — `OutputParser` -/

namespace OutputParser

/-- One checkbox dictionary `{"checked": …, "label": …}`
(output_parser.py lines 212 and 220). -/
structure Checkbox where
  checked : Bool
  label : String

/-- `ParsedPage` (output_parser.py line 22): parsed data from a single
page. -/
structure ParsedPage where
  page_number : Nat
  raw_text : String
  tables_html : List String
  tables_csv : List String
  latex_equations : List String
  image_descriptions : List String
  watermarks : List String
  page_numbers_extracted : List String
  checkboxes : List Checkbox

/-- `ParsedOutput` (output_parser.py line 36). -/
structure ParsedOutput where
  pages : List ParsedPage

/-- The page-delimiter regex `\n--- Page \d+ ---\n` (line 57). -/
def pageDelimRE : RE :=
  .seq (reStr "\n--- Page ") (.seq (rePlus reDigit) (reStr " ---\n"))

/-- Display math `\$\$([^$]+)\$\$` (line 140). -/
def displayMathRE : RE :=
  .seq (reLit '$') (.seq (reLit '$')
    (.seq (.grp (rePlus (.cls (fun c => c ≠ '$')))) (.seq (reLit '$') (reLit '$'))))

/-- Inline math `\$([^$]+)\$` (line 141). -/
def inlineMathRE : RE :=
  .seq (reLit '$') (.seq (.grp (rePlus (.cls (fun c => c ≠ '$')))) (reLit '$'))

/-- `\\begin\{equation\*?\}(.*?)\\end\{equation\*?\}` with `re.DOTALL`
(line 142). -/
def equationEnvRE : RE :=
  .seq (reStr "\\begin\x7bequation") (.seq (reLazyOpt (reLit '*')) (.seq (reLit '\x7d')
    (.seq (.grp (.lazyStar reAny))
      (.seq (reStr "\\end\x7bequation") (.seq (reLazyOpt (reLit '*')) (reLit '\x7d'))))))

/-- `\\begin\{align\*?\}(.*?)\\end\{align\*?\}` with `re.DOTALL`
(line 143). -/
def alignEnvRE : RE :=
  .seq (reStr "\\begin\x7balign") (.seq (reLazyOpt (reLit '*')) (.seq (reLit '\x7d')
    (.seq (.grp (.lazyStar reAny))
      (.seq (reStr "\\end\x7balign") (.seq (reLazyOpt (reLit '*')) (reLit '\x7d'))))))

/-- `extract_equations` (lines 126-156): the four pattern classes are
matched independently against the same content and the stripped
non-blank matches are appended in pattern order.  (Every pattern has
exactly one capture group, so the tuple branch of the Python loop is
unreachable.) -/
def extract_equations (content : String) : List String :=
  [displayMathRE, inlineMathRE, equationEnvRE, alignEnvRE].foldl
    (fun equations pat =>
      equations ++
        (((reFindAll pat content).map pyStrip).filter (fun eq => eq ≠ "")))
    []

/-- `<img>(.*?)</img>` with `re.DOTALL` (line 168). -/
def imgRE : RE :=
  .seq (reStr "<img>") (.seq (.grp (.lazyStar reAny)) (reStr "</img>"))

/-- `extract_images` (lines 158-169). -/
def extract_images (content : String) : List String :=
  ((reFindAll imgRE content).map pyStrip).filter (fun img => img ≠ "")

/-- `<watermark>(.*?)</watermark>` without DOTALL (line 181). -/
def watermarkRE : RE :=
  .seq (reStr "<watermark>") (.seq (.grp (.lazyStar reAnyNoNl)) (reStr "</watermark>"))

/-- `extract_watermarks` (lines 171-182). -/
def extract_watermarks (content : String) : List String :=
  ((reFindAll watermarkRE content).map pyStrip).filter (fun wm => wm ≠ "")

/-- `<page_number>(.*?)</page_number>` without DOTALL (line 194). -/
def pageNumberRE : RE :=
  .seq (reStr "<page_number>") (.seq (.grp (.lazyStar reAnyNoNl)) (reStr "</page_number>"))

/-- `extract_page_numbers` (lines 184-195). -/
def extract_page_numbers (content : String) : List String :=
  ((reFindAll pageNumberRE content).map pyStrip).filter (fun pn => pn ≠ "")

/-- `☑\s*([^\n☐☑]*)` (line 210). -/
def checkedRE : RE :=
  .seq (reLit '☑') (.seq (.star reWs)
    (.grp (.star (.cls (fun c => c ≠ '\n' && c ≠ '☐' && c ≠ '☑')))))

/-- `☐\s*([^\n☐☑]*)` (line 218). -/
def uncheckedRE : RE :=
  .seq (reLit '☐') (.seq (.star reWs)
    (.grp (.star (.cls (fun c => c ≠ '\n' && c ≠ '☐' && c ≠ '☑')))))

/-- `extract_checkboxes` (lines 197-225): one `finditer` pass for the
checked marker, then a second pass for the unchecked marker, appending
the stripped labels in that order. -/
def extract_checkboxes (content : String) : List Checkbox :=
  ((reFindAll checkedRE content).map (fun l => Checkbox.mk true (pyStrip l))) ++
    ((reFindAll uncheckedRE content).map (fun l => Checkbox.mk false (pyStrip l)))

/-- `_parse_page` (lines 68-93).  `extract_tables` runs BeautifulSoup
and pandas (external libraries), so it enters as the parameter
`extractTables`, returning the pair `(tables_html, tables_csv)`. -/
def parse_page (extractTables : String → List String × List String)
    (page_text : String) (page_number : Nat) : ParsedPage :=
  { page_number := page_number
    raw_text := page_text
    tables_html := (extractTables page_text).1
    tables_csv := (extractTables page_text).2
    latex_equations := extract_equations page_text
    image_descriptions := extract_images page_text
    watermarks := extract_watermarks page_text
    page_numbers_extracted := extract_page_numbers page_text
    checkboxes := extract_checkboxes page_text }

/-- The surviving segments of `parse` (line 57-58): split on the
delimiter regex, strip each segment, keep the non-empty ones. -/
def pagesRaw (raw_output : String) : List String :=
  ((reSplit pageDelimRE raw_output).map pyStrip).filter (fun p => p ≠ "")

/-- The `enumerate` loop of `parse` (lines 60-64): page `page_idx + 1`
for the segment at position `page_idx`. -/
def numberPages (extractTables : String → List String × List String) :
    Nat → List String → List ParsedPage
  | _, [] => []
  | n, t :: ts => parse_page extractTables t n :: numberPages extractTables (n + 1) ts

/-- `OutputParser.parse` (lines 47-66). -/
def parse (extractTables : String → List String × List String)
    (raw_output : String) : ParsedOutput :=
  { pages := numberPages extractTables 1 (pagesRaw raw_output) }

/-- The number of page delimiters in a raw input: the number of
non-overlapping matches of the delimiter regex. -/
def countPageDelims (raw_output : String) : Nat :=
  (reFindAll pageDelimRE raw_output).length

end OutputParser

/-! ## `core/schema_extractor.py` — `SchemaExtractor` -/

namespace SchemaExtractor

/-- A Python value as produced by `_validate_value`: the converted
field value (string, int, float — modelled as an exact rational, which
the claims only compare against zero or schema bounds — bool, or list).
-/
inductive Value where
  | vStr (s : String)
  | vInt (n : Int)
  | vNum (q : ℚ)
  | vBool (b : Bool)
  | vList (l : List Value)

/-- A numeric view of a value: Python compares `int`, `float` and
`bool` (a subclass of `int`) by numeric value. -/
def Value.asNum? : Value → Option ℚ
  | .vInt n => some (n : ℚ)
  | .vNum q => some q
  | .vBool b => some (if b then 1 else 0)
  | _ => none

mutual

/-- Python `==` on converted values. -/
def Value.pyEq : Value → Value → Bool
  | a, b =>
    match a.asNum?, b.asNum? with
    | some x, some y => x = y
    | _, _ =>
      match a, b with
      | .vStr s, .vStr t => s = t
      | .vList l, .vList m => Value.pyEqList l m
      | _, _ => false

/-- Python `==` on lists, elementwise. -/
def Value.pyEqList : List Value → List Value → Bool
  | [], [] => true
  | a :: l, b :: m => Value.pyEq a b && Value.pyEqList l m
  | _, _ => false

end

/-- Python truthiness of a converted value: `""`, `0`, `0.0`, `False`
and `[]` are falsy. -/
def pyTruthy : Value → Bool
  | .vStr s => s ≠ ""
  | .vInt n => n ≠ 0
  | .vNum q => q ≠ 0
  | .vBool b => b
  | .vList l => !l.isEmpty

/-- Truthiness of the `value` slot (`None` is falsy). -/
def pyTruthyOpt : Option Value → Bool
  | none => false
  | some v => pyTruthy v

mutual

/-- Python `str()` of a converted value, used in error-message
interpolation (float formatting is approximated; no claim depends on
the rendering of a float). -/
def pyStr : Value → String
  | .vStr s => s
  | .vInt n => toString n
  | .vNum q => toString q
  | .vBool b => if b then "True" else "False"
  | .vList l => "[" ++ String.intercalate ", " (pyStrElems l) ++ "]"

/-- `repr()` of the elements of a printed list (strings are quoted). -/
def pyStrElems : List Value → List String
  | [] => []
  | .vStr s :: rest => ("'" ++ s ++ "'") :: pyStrElems rest
  | v :: rest => pyStr v :: pyStrElems rest

end

/-- Python `str()` of a list of values (for the enum error message). -/
def pyStrList (l : List Value) : String :=
  "[" ++ String.intercalate ", " (pyStrElems l) ++ "]"

/-- `re.sub(r"[^\d-]", "", value)` (line 182): keep digits and `-`. -/
def stripNonDigits (s : String) : List Char :=
  s.toList.filter (fun c => c.isDigit || c = '-')

/-- `re.sub(r"[^\d.-]", "", value)` (line 185): keep digits, `.`, `-`. -/
def stripNonNumeric (s : String) : List Char :=
  s.toList.filter (fun c => c.isDigit || c = '.' || c = '-')

/-- Decimal value of a non-empty digit run. -/
def digitsVal (cs : List Char) : Nat :=
  cs.foldl (fun acc c => 10 * acc + (c.toNat - '0'.toNat)) 0

/-- Python `int(s)` on a string of digits and dashes: an optional
leading `-` followed by at least one digit and nothing else; anything
else raises `ValueError`. -/
def pyIntParse (cs : List Char) : Option Int :=
  match cs with
  | '-' :: body =>
    if body ≠ [] ∧ body.all Char.isDigit then some (-(digitsVal body : Int)) else none
  | body =>
    if body ≠ [] ∧ body.all Char.isDigit then some (digitsVal body : Int) else none

/-- Python `float(s)` on a string of digits, dots and dashes: an
optional leading `-`, then digits with at most one dot and at least one
digit; the exact decimal value is returned as a rational. -/
def pyFloatParse (cs : List Char) : Option ℚ :=
  let signed : Bool × List Char :=
    match cs with
    | '-' :: body => (true, body)
    | body => (false, body)
  let body := signed.2
  if body.any (fun c => c = '-') then none
  else
    let intPart := body.takeWhile (fun c => c ≠ '.')
    let restPart := body.dropWhile (fun c => c ≠ '.')
    let fracPart := restPart.drop 1
    if restPart ≠ [] ∧ fracPart.any (fun c => c = '.') then none
    else if ¬ (intPart ++ fracPart).all Char.isDigit then none
    else if intPart = [] ∧ fracPart = [] then none
    else
      let mag : ℚ := (digitsVal intPart : ℚ) +
        (digitsVal fracPart : ℚ) / ((10 : ℚ) ^ fracPart.length)
      some (if signed.1 then -mag else mag)

/-- One property of the JSON-Schema-like object handed to `extract`:
the keys `_extract_field` and `_validate_value` read
(schema_extractor.py lines 77-80, 182-209, 224-234). -/
structure FieldSchema where
  type : String := "string"
  pattern : Option String := none
  enum : Option (List Value) := none
  description : String := ""
  minLength : Option Nat := none
  maxLength : Option Nat := none
  minimum : Option ℚ := none
  maximum : Option ℚ := none

/-- A schema: `properties` in insertion order, plus the `required`
list (lines 55-56). -/
structure Schema where
  properties : List (String × FieldSchema) := []
  required : List String := []

/-- The `type_patterns` table built in `__init__` (lines 28-37). -/
def type_patterns : List (String × String) :=
  [("string", ".+"),
   ("number", "-?\\d+\\.?\\d*"),
   ("integer", "-?\\d+"),
   ("boolean", "(?:true|false|yes|no|1|0)"),
   ("date", "\\d\x7b1,4\x7d[-/]\\d\x7b1,2\x7d[-/]\\d\x7b1,4\x7d"),
   ("email", "[a-zA-Z0-9._%+-]+@[a-zA-Z0-9.-]+\\.[a-zA-Z]\x7b2,\x7d"),
   ("phone", "[\\d\\s\\-\\+\\(\\)]\x7b7,20\x7d"),
   ("currency", "[\\$€£¥]?\\s*[\\d,]+\\.?\\d*")]

/-- `_build_search_patterns` (lines 132-171): the ordered list of
`(pattern string, confidence weight)` candidates.  Note the order: the
optional custom pattern first, then for each field-name variation
(underscore→space, underscore removed, verbatim, then up to three
description words) a label-colon-value pattern (0.9) immediately
followed by that variation's label-newline-value pattern (0.85), and
the bare type fallback last. -/
def build_search_patterns (field_name description field_type : String)
    (custom_pattern : Option String) : List (String × ℚ) :=
  let value_pattern := ((type_patterns.lookup field_type).getD ".+?")
  let base : List (String × ℚ) :=
    match custom_pattern with
    | some p => [(p, 95/100)]
    | none => []
  let name_variations :=
    [replaceChar '_' " " field_name, replaceChar '_' "" field_name, field_name] ++
      (if description ≠ "" then
        (pySplitWs description).take 3
      else [])
  base ++
    (name_variations.flatMap (fun name =>
      [(name ++ "\\s*[:\\-=]\\s*(" ++ value_pattern ++ ")", 9/10),
       (name ++ "\\s*\\n\\s*(" ++ value_pattern ++ ")", 85/100)])) ++
    [("(" ++ value_pattern ++ ")", 1/2)]

/-- The oracles standing for the external machinery `_extract_field`
calls: `re.search(pattern, text, re.IGNORECASE | re.MULTILINE)`
(returning the stripped-of-nothing text of group 1 when the pattern has
groups, else of group 0, or `None`), and `json.loads`. -/
structure SEnv where
  reSearch : String → String → Option String
  jsonLoads : String → Option Value

/-- `_validate_value` (lines 173-212): validate and convert one
extracted substring to the declared type; `none` models the
`(False, None)` returns and the caught `ValueError`. -/
def validate_value (env : SEnv) (value : String) (field_type : String)
    (fs : FieldSchema) : Option Value :=
  if field_type = "integer" then
    (pyIntParse (stripNonDigits value)).map Value.vInt
  else if field_type = "number" then
    (pyFloatParse (stripNonNumeric value)).map Value.vNum
  else if field_type = "boolean" then
    let lower := pyLower value
    if lower = "true" ∨ lower = "yes" ∨ lower = "1" then some (.vBool true)
    else if lower = "false" ∨ lower = "no" ∨ lower = "0" then some (.vBool false)
    else none
  else if field_type = "array" then
    match env.jsonLoads value with
    | some v => some v
    | none => some (.vList (((pySplitOn ',' value).map pyStrip).map Value.vStr))
  else
    let min_len := fs.minLength.getD 0
    match fs.maxLength with
    | some max_len =>
      if min_len ≤ value.length ∧ value.length ≤ max_len then some (.vStr value) else none
    | none =>
      if min_len ≤ value.length then some (.vStr value) else none

/-- `ExtractionResult` (lines 12-19). -/
structure ExtractionResult where
  field_name : String
  value : Option Value
  confidence : ℚ
  valid : Bool
  errors : List String

/-- The pattern loop of `_extract_field` (lines 92-112): try the
candidate patterns in order; on the first whose match validates, stop
with that value and the pattern's weight; a match that fails validation
contributes a type-mismatch error and the loop goes on.  Returns
`(value, confidence, errors)`. -/
def searchLoop (env : SEnv) (text field_type : String) (fs : FieldSchema) :
    List (String × ℚ) → Option Value × ℚ × List String
  | [] => (none, 0, [])
  | (p, w) :: rest =>
    match env.reSearch p text with
    | none => searchLoop env text field_type fs rest
    | some m =>
      let extracted := pyStrip m
      match validate_value env extracted field_type fs with
      | some v => (some v, w, [])
      | none =>
        let r := searchLoop env text field_type fs rest
        (r.1, r.2.1,
          ("Value '" ++ extracted ++ "' doesn't match type '" ++ field_type ++ "'") :: r.2.2)

/-- The enum error message of line 116. -/
def enumErrMsg (v : Value) (evs : List Value) : String :=
  "Value '" ++ pyStr v ++ "' not in allowed values: " ++ pyStrList evs

/-- The enum constraint check of lines 114-117: a truthy value outside
a truthy (non-empty) enum list is recorded as an error and the value is
set to `None`. -/
def enumCheck (value : Option Value) (enum? : Option (List Value))
    (errors : List String) : Option Value × List String :=
  match value, enum? with
  | some v, some evs =>
    if pyTruthy v && !evs.isEmpty && !(evs.any (fun e => Value.pyEq v e)) then
      (none, errors ++ [enumErrMsg v evs])
    else (some v, errors)
  | v, _ => (v, errors)

/-- `_validate_format` (lines 214-236).  Python's `bool` is a subclass
of `int`, so boolean values also undergo the numeric bound checks. -/
def validate_format (v : Value) (fs : FieldSchema) : List String :=
  let strErrors :=
    match v with
    | .vStr s =>
      (match fs.minLength with
       | some m => if s.length < m then ["Value too short (min: " ++ toString m ++ ")"] else []
       | none => []) ++
      (match fs.maxLength with
       | some m => if s.length > m then ["Value too long (max: " ++ toString m ++ ")"] else []
       | none => [])
    | _ => []
  let numVal : Option ℚ :=
    match v with
    | .vInt n => some (n : ℚ)
    | .vNum q => some q
    | .vBool b => some (if b then 1 else 0)
    | _ => none
  let numErrors :=
    match numVal with
    | some q =>
      (match fs.minimum with
       | some m => if q < m then ["Value below minimum (" ++ toString m ++ ")"] else []
       | none => []) ++
      (match fs.maximum with
       | some m => if q > m then ["Value above maximum (" ++ toString m ++ ")"] else []
       | none => [])
    | none => []
  strErrors ++ numErrors

/-- The tail of `_extract_field` after the pattern loop (lines
114-130): enum check, format check, and assembly of the
`ExtractionResult`; `sr` is the `(value, confidence, errors)` the loop
produced. -/
def extractFieldRest (field_name : String) (fs : FieldSchema)
    (sr : Option Value × ℚ × List String) : ExtractionResult :=
  let afterEnum := enumCheck sr.1 fs.enum sr.2.2
  let value := afterEnum.1
  let errors :=
    match value with
    | some v => if pyTruthy v then afterEnum.2 ++ validate_format v fs else afterEnum.2
    | none => afterEnum.2
  { field_name := field_name
    value := value
    confidence := sr.2.1
    valid := errors.isEmpty && value.isSome
    errors := errors }

/-- `_extract_field` (lines 70-130). -/
def extract_field (env : SEnv) (text field_name : String) (fs : FieldSchema) :
    ExtractionResult :=
  extractFieldRest field_name fs (searchLoop env text fs.type fs
    (build_search_patterns field_name fs.description fs.type fs.pattern))

/-- The required-field error message of line 64. -/
def requiredMsg (field_name : String) : String :=
  "Required field '" ++ field_name ++ "' not found"

/-- `extract` (lines 39-68): one `ExtractionResult` per property in
insertion order; a required field whose value is falsy is marked
invalid with a required-field error appended. -/
def extract (env : SEnv) (text : String) (schema : Schema) :
    List (String × ExtractionResult) :=
  schema.properties.map (fun pr =>
    let result := extract_field env text pr.1 pr.2
    if pr.1 ∈ schema.required ∧ pyTruthyOpt result.value = false then
      (pr.1, { result with valid := false, errors := result.errors ++ [requiredMsg pr.1] })
    else
      (pr.1, result))

end SchemaExtractor

/-! ## `core/semantic_extractor.py` — `SemanticExtractor` -/

namespace SemanticExtractor

/-- `r{n}`: exactly `n` copies. -/
def reTimes : Nat → RE → RE
  | 0, _ => .eps
  | n + 1, r => .seq r (reTimes n r)

/-- `r{0,n}` (greedy). -/
def reUpTo : Nat → RE → RE
  | 0, _ => .eps
  | n + 1, r => .alt (.seq r (reUpTo n r)) .eps

/-- `r{lo,hi}` (greedy). -/
def reRange (lo hi : Nat) (r : RE) : RE :=
  .seq (reTimes lo r) (reUpTo (hi - lo) r)

/-- `r{lo,}` (greedy). -/
def reAtLeast (lo : Nat) (r : RE) : RE :=
  .seq (reTimes lo r) (.star r)

/-- `\b[A-Z][a-z]+\s+[A-Z][a-z]+\b` (semantic_extractor.py line 54). -/
def personNameRE : RE :=
  .seq .wordB (.seq reUpper (.seq (rePlus reLower)
    (.seq (rePlus reWs) (.seq reUpper (.seq (rePlus reLower) .wordB)))))

/-- `(?:Mr\.|Mrs\.|Ms\.|Dr\.)\s+[A-Z][a-z]+` (line 55). -/
def personTitleRE : RE :=
  .seq (reAlts [reStr "Mr.", reStr "Mrs.", reStr "Ms.", reStr "Dr."])
    (.seq (rePlus reWs) (.seq reUpper (rePlus reLower)))

/-- `[A-Z][a-z]+(?:\s+[A-Z][a-z]+)*\s+(?:Inc\.|Corp\.|LLC|Ltd\.)` (line 58). -/
def orgSuffixRE : RE :=
  .seq reUpper (.seq (rePlus reLower)
    (.seq (.star (.seq (rePlus reWs) (.seq reUpper (rePlus reLower))))
      (.seq (rePlus reWs)
        (reAlts [reStr "Inc.", reStr "Corp.", reStr "LLC", reStr "Ltd."]))))

/-- `[A-Z]{2,}\s+(?:Corporation|Company|Industries)` (line 59). -/
def orgAcronymRE : RE :=
  .seq (reAtLeast 2 reUpper) (.seq (rePlus reWs)
    (reAlts [reStr "Corporation", reStr "Company", reStr "Industries"]))

/-- The class matching a slash or a dash. -/
def reSlashDash : RE := .cls (fun c => c = '/' || c = '-')

/-- `\d{1,2}` slash-or-dash `\d{1,2}` slash-or-dash `\d{2,4}`
(line 62). -/
def dateSlashRE : RE :=
  .seq (reRange 1 2 reDigit) (.seq reSlashDash
    (.seq (reRange 1 2 reDigit) (.seq reSlashDash (reRange 2 4 reDigit))))

/-- The month-name date pattern of line 63. -/
def dateMonthRE : RE :=
  .seq (reAlts [reStr "January", reStr "February", reStr "March", reStr "April",
      reStr "May", reStr "June", reStr "July", reStr "August", reStr "September",
      reStr "October", reStr "November", reStr "December"])
    (.seq (rePlus reWs) (.seq (reRange 1 2 reDigit)
      (.seq (reOpt (reLit ',')) (.seq (rePlus reWs) (reTimes 4 reDigit)))))

/-- `\d{4}-\d{2}-\d{2}` (line 64). -/
def dateIsoRE : RE :=
  .seq (reTimes 4 reDigit) (.seq (reLit '-')
    (.seq (reTimes 2 reDigit) (.seq (reLit '-') (reTimes 2 reDigit))))

/-- `[\d,]`. -/
def reDigitComma : RE := .cls (fun c => c.isDigit || c = ',')

/-- `\$[\d,]+\.?\d*` (line 67). -/
def moneyDollarRE : RE :=
  .seq (reLit '$') (.seq (rePlus reDigitComma)
    (.seq (reOpt (reLit '.')) (.star reDigit)))

/-- `[\d,]+\.?\d*\s*(?:USD|EUR|GBP)` (line 68). -/
def moneyCodeRE : RE :=
  .seq (rePlus reDigitComma) (.seq (reOpt (reLit '.')) (.seq (.star reDigit)
    (.seq (.star reWs) (reAlts [reStr "USD", reStr "EUR", reStr "GBP"]))))

/-- `(?:€|£|¥)[\d,]+\.?\d*` (line 69). -/
def moneySymbolRE : RE :=
  .seq (reAlts [reLit '€', reLit '£', reLit '¥'])
    (.seq (rePlus reDigitComma) (.seq (reOpt (reLit '.')) (.star reDigit)))

/-- `[a-zA-Z0-9._%+-]`. -/
def reEmailLocal : RE := .cls (fun c => c.isAlpha || c.isDigit ||
  c = '.' || c = '_' || c = '%' || c = '+' || c = '-')

/-- `[a-zA-Z0-9.-]`. -/
def reEmailDomain : RE := .cls (fun c => c.isAlpha || c.isDigit || c = '.' || c = '-')

/-- `[a-zA-Z]`. -/
def reLetter : RE := .cls Char.isAlpha

/-- `[a-zA-Z0-9._%+-]+@[a-zA-Z0-9.-]+\.[a-zA-Z]{2,}` (line 72). -/
def emailRE : RE :=
  .seq (rePlus reEmailLocal) (.seq (reLit '@')
    (.seq (rePlus reEmailDomain) (.seq (reLit '.') (reAtLeast 2 reLetter))))

/-- `[-.\s]`. -/
def rePhoneSep : RE := .cls (fun c => c = '-' || c = '.' || c.isWhitespace)

/-- `\+?\d{1,3}[-.\s]?\(?\d{3}\)?[-.\s]?\d{3}[-.\s]?\d{4}` (line 75). -/
def phoneLooseRE : RE :=
  .seq (reOpt (reLit '+')) (.seq (reRange 1 3 reDigit) (.seq (reOpt rePhoneSep)
    (.seq (reOpt (reLit '(')) (.seq (reTimes 3 reDigit) (.seq (reOpt (reLit ')'))
      (.seq (reOpt rePhoneSep) (.seq (reTimes 3 reDigit)
        (.seq (reOpt rePhoneSep) (reTimes 4 reDigit)))))))))

/-- `\(\d{3}\)\s*\d{3}-\d{4}` (line 76). -/
def phoneParenRE : RE :=
  .seq (reLit '(') (.seq (reTimes 3 reDigit) (.seq (reLit ')')
    (.seq (.star reWs) (.seq (reTimes 3 reDigit)
      (.seq (reLit '-') (reTimes 4 reDigit))))))

/-- The street-address pattern of line 79. -/
def addressRE : RE :=
  .seq (rePlus reDigit) (.seq (rePlus reWs) (.seq reUpper (.seq (rePlus reLower)
    (.seq (.star (.seq (rePlus reWs) (.seq reUpper (rePlus reLower))))
      (.seq (rePlus reWs)
        (reAlts [reStr "Street", reStr "St", reStr "Avenue", reStr "Ave",
          reStr "Road", reStr "Rd", reStr "Boulevard", reStr "Blvd"]))))))

/-- `_person_exclusions` (lines 46-51): labels never reported as
persons. -/
def person_exclusions : List String :=
  ["bill to", "ship to", "sold to", "deliver to", "ship mode", "second class",
   "first class", "standard class", "balance due", "amount due", "total due",
   "grand total", "sub total", "thank you", "terms and", "notes and",
   "order id", "invoice number", "receipt number", "customer id"]

/-- The product words of line 151: a person match containing any of
them is skipped. -/
def product_words : List String :=
  ["inkjet", "laser", "printer", "machine", "class"]

/-- `_build_entity_patterns` (lines 43-81), in dict insertion order. -/
def entity_patterns : List (String × List RE) :=
  [("person", [personNameRE, personTitleRE]),
   ("organization", [orgSuffixRE, orgAcronymRE]),
   ("date", [dateSlashRE, dateMonthRE, dateIsoRE]),
   ("money", [moneyDollarRE, moneyCodeRE, moneySymbolRE]),
   ("email", [emailRE]),
   ("phone", [phoneLooseRE, phoneParenRE]),
   ("address", [addressRE])]

/-- One entity dictionary `{"type": …, "value": …, "confidence": 0.8}`
(lines 153-157). -/
structure Entity where
  type : String
  value : String
  confidence : ℚ
deriving DecidableEq

/-- `SemanticField` (lines 10-17). -/
structure SemanticField where
  name : String
  value : String
  confidence : ℚ
  context : String
  reasoning : String

/-- `SemanticExtractionResult` (lines 20-26).  `fields` is a dict in
insertion order. -/
structure SemanticExtractionResult where
  fields : List (String × SemanticField)
  summary : String
  entities : List Entity
  key_points : List String

/-- The named-entity loop of `extract` (lines 141-157): every pattern
of every entity type is matched independently; person matches whose
lowercase form is in the exclusion list or contains a product word are
skipped; everything else is appended with confidence 0.8. -/
def extractEntities (text : String) : List Entity :=
  entity_patterns.flatMap (fun ep =>
    ep.2.flatMap (fun pat =>
      (reFindAll pat text).filterMap (fun m =>
        if ep.1 = "person" &&
            (person_exclusions.contains (pyLower m) ||
              product_words.any (fun w => pyInStr w (pyLower m))) then
          none
        else
          some (Entity.mk ep.1 m (8/10)))))

/-- `_build_context_patterns` (lines 83-117): context-group name,
trigger words, and `(field name, pattern string)` pairs.  The pattern
strings are matched by a `re.search(..., re.IGNORECASE)` oracle. -/
def context_patterns : List (String × List String × List (String × String)) :=
  [("payment_info", (["payment", "pay", "due", "amount", "total"],
    [("amount", "(?:total|amount|due|payment)\\s*:?\\s*\\$?([\\d,]+\\.?\\d*)"),
     ("due_date",
       "(?:due|payment)\\s+(?:date|by)\\s*:?\\s*(\\d\x7b1,2\x7d[/-]\\d\x7b1,2\x7d[/-]\\d\x7b2,4\x7d)"),
     ("method", "(?:pay|payment)\\s+(?:by|via|method)\\s*:?\\s*(\\w+)")])),
   ("contact_info", (["contact", "phone", "email", "address", "reach"],
    [("phone", "(?:phone|tel|call)\\s*:?\\s*([\\d\\s\\-\\(\\)]+)"),
     ("email",
       "(?:email|e-mail)\\s*:?\\s*([a-zA-Z0-9._%+-]+@[a-zA-Z0-9.-]+\\.[a-zA-Z]\x7b2,\x7d)"),
     ("address", "(?:address|location)\\s*:?\\s*(.+?)(?:\\n|$)")])),
   ("identification", (["id", "number", "reference", "account"],
    [("id_number",
       "(?:id|identification|account|reference)\\s*(?:number|#|no)?\\s*:?\\s*([A-Z0-9\\-]+)"),
     ("customer_id", "(?:customer|client)\\s*(?:id|#)\\s*:?\\s*([A-Z0-9\\-]+)")])),
   ("dates", (["date", "issued", "effective", "expires"],
    [("issue_date",
       "(?:issue|issued|created)\\s+(?:date)?\\s*:?\\s*(\\d\x7b1,2\x7d[/-]\\d\x7b1,2\x7d[/-]\\d\x7b2,4\x7d)"),
     ("effective_date",
       "(?:effective|start)\\s+(?:date)?\\s*:?\\s*(\\d\x7b1,2\x7d[/-]\\d\x7b1,2\x7d[/-]\\d\x7b2,4\x7d)"),
     ("expiry_date",
       "(?:expir|end)\\w*\\s+(?:date)?\\s*:?\\s*(\\d\x7b1,2\x7d[/-]\\d\x7b1,2\x7d[/-]\\d\x7b2,4\x7d)")]))]

/-- Dict insert with overwrite (Python keeps the original position of
an overwritten key). -/
def dictInsert (k : String) (v : SemanticField)
    (d : List (String × SemanticField)) : List (String × SemanticField) :=
  if d.any (fun p => p.1 = k) then
    d.map (fun p => if p.1 = k then (k, v) else p)
  else
    d ++ [(k, v)]

/-- The context-aware extraction loop of `extract` (lines 160-173),
with `re.search(pattern, text, re.IGNORECASE)` as the oracle
`searchCI` (returning group 1). -/
def extractContextFields (searchCI : String → String → Option String)
    (text : String) : List (String × SemanticField) :=
  let text_lower := pyLower text
  context_patterns.foldl (fun fields cp =>
    if cp.2.1.any (fun trigger => pyInStr trigger text_lower) then
      cp.2.2.foldl (fun fl fp =>
        match searchCI fp.2 text with
        | some g =>
          dictInsert fp.1
            (SemanticField.mk fp.1 (pyStrip g) (85/100) cp.1
              ("Found in " ++ cp.1 ++ " context with pattern match")) fl
        | none => fl) fields
    else fields) []

/-- `_generate_summary` (lines 234-258). -/
def generate_summary (text : String) (entities : List Entity) : String :=
  let count := fun (t : String) => (entities.filter (fun e => e.type = t)).length
  let parts :=
    (if count "organization" > 0 then
      [toString (count "organization") ++ " organization(s)"] else []) ++
    (if count "person" > 0 then [toString (count "person") ++ " person(s)"] else []) ++
    (if count "money" > 0 then [toString (count "money") ++ " monetary value(s)"] else []) ++
    (if count "date" > 0 then [toString (count "date") ++ " date(s)"] else [])
  if parts ≠ [] then
    "Document contains: " ++ String.intercalate ", " parts ++ "."
  else
    let word_count := (pySplitWs text).length
    "Document with " ++ toString word_count ++ " words."

/-- `(?:^|\n)\s*(?:[\•\-\*]|\d+\.)\s*(.+?)(?:\n|$)` (line 265),
compiled without flags, so `^` is the start of the string and `$` the
end (or just before a final newline). -/
def bulletRE : RE :=
  .seq (.alt .atStart (reLit '\n')) (.seq (.star reWs)
    (.seq (.alt (.cls (fun c => c = '•' || c = '-' || c = '*'))
        (.seq (rePlus reDigit) (reLit '.')))
      (.seq (.star reWs)
        (.seq (.grp (.seq reAnyNoNl (.lazyStar reAnyNoNl)))
          (.alt (reLit '\n') .atEnd)))))

/-- `(?:important|note|attention|warning)\s*:?\s*(.+?)(?:\n|$)` with
`re.IGNORECASE` (line 271). -/
def importantRE : RE :=
  .seq (reAlts [reStrCI "important", reStrCI "note", reStrCI "attention",
      reStrCI "warning"])
    (.seq (.star reWs) (.seq (reOpt (reLit ':')) (.seq (.star reWs)
      (.seq (.grp (.seq reAnyNoNl (.lazyStar reAnyNoNl)))
        (.alt (reLit '\n') .atEnd)))))

/-- `(?:please|must|required)\s+(.+?)(?:\n|$)` with `re.IGNORECASE`
(line 272). -/
def pleaseRE : RE :=
  .seq (reAlts [reStrCI "please", reStrCI "must", reStrCI "required"])
    (.seq (rePlus reWs)
      (.seq (.grp (.seq reAnyNoNl (.lazyStar reAnyNoNl)))
        (.alt (reLit '\n') .atEnd)))

/-- `_extract_key_points` (lines 260-279). -/
def extract_key_points (text : String) : List String :=
  (((reFindAll bulletRE text).take 5 ++
    (reFindAll importantRE text).take 2 ++
    (reFindAll pleaseRE text).take 2)).take 10

/-- `extract` (lines 119-193) called without queries and without
context (their default is `None`, so the query branch is skipped):
entities, context fields, summary over the full entity list, the
entity list capped at 20, and key points. -/
def extract (searchCI : String → String → Option String) (text : String) :
    SemanticExtractionResult :=
  let entities := extractEntities text
  { fields := extractContextFields searchCI text
    summary := generate_summary text entities
    entities := entities.take 20
    key_points := extract_key_points text }

end SemanticExtractor

/-! ## `core/structured_output.py` — `StructuredOutputProcessor._parse_line_items` -/

namespace StructuredOutput

/-- The line-item record: the dict built per row can carry these keys
(structured_output.py lines 331-355; the `LineItem` dataclass of lines
16-24 declares the same fields). -/
structure LineItem where
  description : Option String := none
  quantity : Option String := none
  rate : Option String := none
  amount : Option String := none
  sku : Option String := none
  category : Option String := none
deriving DecidableEq

/-- `([A-Z]+-[A-Z]+-\d+)` (line 344): the SKU-shaped token. -/
def skuRE : RE :=
  .grp (.seq (rePlus reUpper) (.seq (reLit '-')
    (.seq (rePlus reUpper) (.seq (reLit '-') (rePlus reDigit)))))

/-- Python `str.strip(',')`: drop commas from both ends. -/
def stripCommas (s : String) : String :=
  String.mk (((s.toList.dropWhile (fun c => c = ',')).reverse.dropWhile
    (fun c => c = ',')).reverse)

/-- The description-cell handling of lines 337-349: the first line is
the description; if a second line exists it is scanned for a SKU and
the remainder becomes the category. -/
def applyDescCell (item : LineItem) (cell_text : String) : LineItem :=
  let desc_parts := pySplitOn '\n' cell_text
  let item := { item with description := some (pyStrip (desc_parts.headD "")) }
  if desc_parts.length > 1 then
    let extra := (desc_parts.drop 1).headD ""
    match reSearchRE skuRE extra with
    | some sku =>
      let item := { item with sku := some sku }
      let category := pyStrip (stripCommas (pyStrip (pyReplace extra sku "")))
      if category ≠ "" then { item with category := some category } else item
    | none => item
  else item

/-- The per-cell dispatch of lines 332-355 (header names are already
lower-cased). -/
def applyCell (item : LineItem) (header cell_text : String) : LineItem :=
  if header = "item" ∨ header = "description" ∨ header = "product" then
    applyDescCell item cell_text
  else if header = "quantity" ∨ header = "qty" then
    { item with quantity := some cell_text }
  else if header = "rate" ∨ header = "price" ∨ header = "unit price" then
    { item with rate := some cell_text }
  else if header = "amount" ∨ header = "total" ∨ header = "subtotal" then
    { item with amount := some cell_text }
  else item

/-- The appending gate of lines 357-358: `if item.get('description'):
items.append(item)` — the item passes only with a truthy (non-empty)
description. -/
def descGate (item : LineItem) : Option LineItem :=
  match item.description with
  | some d => if d ≠ "" then some item else none
  | none => none

/-- One data row (lines 326-358): skipped when its cell count differs
from the header count; emitted only when a non-empty description was
found.  `cells` are the raw cell texts; `get_text(strip=True)`
becomes the strip applied to each cell. -/
def parseRow (headers : List String) (cells : List String) : Option LineItem :=
  if cells.length ≠ headers.length then none
  else
    descGate ((headers.zip (cells.map pyStrip)).foldl
      (fun it hc => applyCell it hc.1 hc.2) {})

/-- `_parse_line_items` (lines 309-360) on the rows BeautifulSoup
finds in the table fragment: each row is the list of its cells' texts.
Fewer than two rows produce no items; the first row supplies the
headers (stripped and lower-cased). -/
def parse_line_items (rows : List (List String)) : List LineItem :=
  if rows.length < 2 then []
  else
    match rows with
    | [] => []
    | header_row :: rest =>
      let headers := header_row.map (fun th => pyLower (pyStrip th))
      rest.filterMap (fun row => parseRow headers row)

end StructuredOutput

/-! ## Theorems -/

/-- The `enumerate` numbering of `OutputParser.parse`: page numbers are
`n, n+1, …` by position and the raw texts are the segments themselves. -/
theorem numberPages_map (et : String → List String × List String) :
    ∀ (n : Nat) (l : List String),
      ((OutputParser.numberPages et n l).map (fun p => p.page_number) =
        List.range' n l.length) ∧
      ((OutputParser.numberPages et n l).map (fun p => p.raw_text) = l)
  | n, [] => by simp [OutputParser.numberPages]
  | n, t :: ts => by
    have ih := numberPages_map et (n + 1) ts
    simp [OutputParser.numberPages, OutputParser.parse_page, List.range'_succ,
      ih.1, ih.2]

/-- C1 (counterexample): a raw input with exactly one page delimiter
and non-empty content on both sides of it yields two `ParsedPage`s,
not one, refuting "N page delimiters → exactly N pages". -/
theorem C1_counterexample :
    OutputParser.countPageDelims "a\n--- Page 1 ---\nb" = 1 ∧
    (OutputParser.parse (fun _ => ([], [])) "a\n--- Page 1 ---\nb").pages.length = 2 := by
  constructor
  · decide
  · decide

/-- C1 (amended): `OutputParser.parse` returns exactly one `ParsedPage`
per surviving (stripped, non-empty) segment after splitting on the
delimiter regex, and the pages are numbered 1..K by their position in
the surviving segment sequence (their `raw_text` being the segments in
order), not by the literal number in the delimiter. -/
theorem C1_pages_numbered_by_position (et : String → List String × List String)
    (raw : String) :
    ((OutputParser.parse et raw).pages.map (fun p => p.page_number) =
      List.range' 1 (OutputParser.pagesRaw raw).length) ∧
    ((OutputParser.parse et raw).pages.map (fun p => p.raw_text) =
      OutputParser.pagesRaw raw) :=
  numberPages_map et 1 (OutputParser.pagesRaw raw)

/-- C7: on an input whose only dollar signs delimit one display-math
block, the display pattern and the inline pattern each match the same
body once (no mutual exclusion of already-consumed spans), so
`extract_equations` returns the trimmed body twice. -/
theorem C7_display_math_double_counted :
    reFindAll OutputParser.displayMathRE "see $$ x+y $$ here" = [" x+y "] ∧
    reFindAll OutputParser.inlineMathRE "see $$ x+y $$ here" = [" x+y "] ∧
    OutputParser.extract_equations "see $$ x+y $$ here" = ["x+y", "x+y"] := by
  refine ⟨by decide, by decide, by decide⟩

/-- Ordering core of C8: in a list made of a block of checked entries
followed by a block of unchecked entries, nothing checked follows
anything unchecked. -/
theorem checkbox_blocks_ordered (xs ys : List String) (i j : Nat)
    (hi : i < ((xs.map (fun l => OutputParser.Checkbox.mk true (pyStrip l))) ++
      (ys.map (fun l => OutputParser.Checkbox.mk false (pyStrip l)))).length)
    (hj : j < ((xs.map (fun l => OutputParser.Checkbox.mk true (pyStrip l))) ++
      (ys.map (fun l => OutputParser.Checkbox.mk false (pyStrip l)))).length)
    (hij : i ≤ j)
    (h : (((xs.map (fun l => OutputParser.Checkbox.mk true (pyStrip l))) ++
      (ys.map (fun l => OutputParser.Checkbox.mk false (pyStrip l)))).get ⟨i, hi⟩).checked
        = false) :
    (((xs.map (fun l => OutputParser.Checkbox.mk true (pyStrip l))) ++
      (ys.map (fun l => OutputParser.Checkbox.mk false (pyStrip l)))).get ⟨j, hj⟩).checked
        = false := by
  simp only [List.get_eq_getElem] at h ⊢
  rcases Nat.lt_or_ge j (xs.map (fun l => OutputParser.Checkbox.mk true (pyStrip l))).length
    with hlt | hge
  · exfalso
    have hilt : i < (xs.map (fun l => OutputParser.Checkbox.mk true (pyStrip l))).length :=
      Nat.lt_of_le_of_lt hij hlt
    rw [List.getElem_append_left hilt] at h
    simp [List.getElem_map] at h
  · rw [List.getElem_append_right hge]
    simp [List.getElem_map]

/-- C8: `extract_checkboxes` lists all checked entries before all
unchecked entries — the checked-marker pass is appended before the
unchecked-marker pass, each pass in document order — so once an
unchecked entry appears, every later entry is unchecked too. -/
theorem C8_checked_listed_before_unchecked (content : String) (i j : Nat)
    (hi : i < (OutputParser.extract_checkboxes content).length)
    (hj : j < (OutputParser.extract_checkboxes content).length)
    (hij : i ≤ j)
    (h : ((OutputParser.extract_checkboxes content).get ⟨i, hi⟩).checked = false) :
    ((OutputParser.extract_checkboxes content).get ⟨j, hj⟩).checked = false :=
  checkbox_blocks_ordered (reFindAll OutputParser.checkedRE content)
    (reFindAll OutputParser.uncheckedRE content) i j hi hj hij h

/-- Witness for C8 on a concrete page: in `"☑ a ☐ b ☐ c"` the entry at
position 1 is unchecked, so the entry at position 2 is unchecked too. -/
theorem C8_checked_listed_before_unchecked_witness :
    ((OutputParser.extract_checkboxes "☑ a ☐ b ☐ c").get ⟨2, by decide⟩).checked = false :=
  C8_checked_listed_before_unchecked "☑ a ☐ b ☐ c" 1 2 (by decide) (by decide)
    (by decide) (by decide)

/-- When the pattern loop finds no type-valid match, its value slot is
`None`. -/
theorem searchLoop_value_none (env : SchemaExtractor.SEnv) (text ftype : String)
    (fs : SchemaExtractor.FieldSchema) :
    ∀ l : List (String × ℚ),
      (∀ p w, (p, w) ∈ l → ∀ s, env.reSearch p text = some s →
        SchemaExtractor.validate_value env (pyStrip s) ftype fs = none) →
      (SchemaExtractor.searchLoop env text ftype fs l).1 = none
  | [], _ => rfl
  | (p, w) :: rest, h => by
    have hrest := searchLoop_value_none env text ftype fs rest
      (fun q u hm s hs => h q u (List.mem_cons_of_mem _ hm) s hs)
    cases hsearch : env.reSearch p text with
    | none => simpa [SchemaExtractor.searchLoop, hsearch] using hrest
    | some m =>
      have hval := h p w (List.mem_cons_self _ _) m hsearch
      simp [SchemaExtractor.searchLoop, hsearch, hval, hrest]

/-- The enum check passes a `None` value through untouched. -/
theorem enumCheck_none (enum? : Option (List SchemaExtractor.Value))
    (errs : List String) :
    SchemaExtractor.enumCheck none enum? errs = (none, errs) := by
  cases enum? <;> rfl

/-- C2 (counterexample): for the field `invoice_number` the candidate
list interleaves the 0.90 colon patterns and the 0.85 next-line
patterns per name variation, so the pattern at position 2 (a next-line
pattern, weight 0.85) is tried before the pattern at position 3 (a
colon pattern, weight 0.90): the list is not ordered by descending
confidence weight. -/
theorem C2_counterexample :
    ((SchemaExtractor.build_search_patterns "invoice_number" "" "string"
        (some "PAT")).map Prod.snd) =
      [95/100, 9/10, 85/100, 9/10, 85/100, 9/10, 85/100, 1/2] ∧
    ((SchemaExtractor.build_search_patterns "invoice_number" "" "string"
        (some "PAT")).get ⟨2, by decide⟩).1 = "invoice number\\s*\\n\\s*(.+)" ∧
    ((SchemaExtractor.build_search_patterns "invoice_number" "" "string"
        (some "PAT")).get ⟨3, by decide⟩).1 = "invoicenumber\\s*[:\\-=]\\s*(.+)" ∧
    ((SchemaExtractor.build_search_patterns "invoice_number" "" "string"
        (some "PAT")).get ⟨2, by decide⟩).2 <
      ((SchemaExtractor.build_search_patterns "invoice_number" "" "string"
        (some "PAT")).get ⟨3, by decide⟩).2 := by
  refine ⟨rfl, rfl, rfl, ?_⟩
  show (85 / 100 : ℚ) < 9 / 10
  norm_num

/-- C2 (amended): `_extract_field` tries the candidate patterns in
list order — the custom pattern first, then per name variation a colon
pattern (0.90) immediately followed by a next-line pattern (0.85), the
bare fallback (0.50) last — and the first pattern whose match
validates against the declared type wins: the value is the converted
match, the confidence is that pattern's weight, and no later pattern
is consulted. -/
theorem C2_first_valid_match_wins (env : SchemaExtractor.SEnv)
    (text ftype : String) (fs : SchemaExtractor.FieldSchema) :
    ∀ (l₁ : List (String × ℚ)) (p : String) (w : ℚ) (l₂ : List (String × ℚ))
      (m : String) (v : SchemaExtractor.Value),
      (∀ q u, (q, u) ∈ l₁ → ∀ s, env.reSearch q text = some s →
        SchemaExtractor.validate_value env (pyStrip s) ftype fs = none) →
      env.reSearch p text = some m →
      SchemaExtractor.validate_value env (pyStrip m) ftype fs = some v →
      (SchemaExtractor.searchLoop env text ftype fs (l₁ ++ (p, w) :: l₂)).1 = some v ∧
      (SchemaExtractor.searchLoop env text ftype fs (l₁ ++ (p, w) :: l₂)).2.1 = w
  | [], p, w, l₂, m, v, _, hm, hv => by
    simp [SchemaExtractor.searchLoop, hm, hv]
  | (q, u) :: l₁, p, w, l₂, m, v, h, hm, hv => by
    have ih := C2_first_valid_match_wins env text ftype fs l₁ p w l₂ m v
      (fun q' u' hm' => h q' u' (List.mem_cons_of_mem _ hm')) hm hv
    cases hq : env.reSearch q text with
    | none => simpa [SchemaExtractor.searchLoop, hq] using ih
    | some s =>
      have hval := h q u (List.mem_cons_self _ _) s hq
      simp [SchemaExtractor.searchLoop, hq, hval, ih.1, ih.2]

/-- Witness for the amended C2: with a matcher that returns `"hi"`
everywhere and a single string-typed pattern of weight 1/2, the loop
stops at that pattern with the converted value and its weight. -/
theorem C2_first_valid_match_wins_witness :
    (SchemaExtractor.searchLoop ⟨fun _ _ => some "hi", fun _ => none⟩ "t" "string"
      {} ([] ++ ("p", 1/2) :: [])).1 = some (.vStr "hi") ∧
    (SchemaExtractor.searchLoop ⟨fun _ _ => some "hi", fun _ => none⟩ "t" "string"
      {} ([] ++ ("p", 1/2) :: [])).2.1 = 1/2 :=
  C2_first_valid_match_wins ⟨fun _ _ => some "hi", fun _ => none⟩ "t" "string" {}
    [] "p" (1/2) [] "hi" (.vStr "hi")
    (fun _ _ hm => absurd hm (List.not_mem_nil _)) rfl rfl

/-- C3 (counterexample): with a matcher that extracts `"XYZ"` for a
string field whose enum is `["USD", "EUR"]`, `_extract_field` records
the enum violation but sets `value` to `None` — the accepted value is
discarded, not retained. -/
theorem C3_counterexample :
    (SchemaExtractor.extract_field ⟨fun _ _ => some "XYZ", fun _ => none⟩ "t"
      "currency" { type := "string", enum := some [.vStr "USD", .vStr "EUR"] }).value
        = none ∧
    (SchemaExtractor.extract_field ⟨fun _ _ => some "XYZ", fun _ => none⟩ "t"
      "currency" { type := "string", enum := some [.vStr "USD", .vStr "EUR"] }).errors
        = ["Value 'XYZ' not in allowed values: ['USD', 'EUR']"] :=
  ⟨rfl, rfl⟩

/-- C3 (amended): when the pattern loop has accepted a truthy value
that is not a member of a non-empty enum list, `_extract_field`
records the violation in `errors` and discards the value: `value`
comes back `None` and the result is invalid. -/
theorem C3_enum_violation_discards_value (env : SchemaExtractor.SEnv)
    (text field_name : String) (fs : SchemaExtractor.FieldSchema)
    (evs : List SchemaExtractor.Value) (v : SchemaExtractor.Value) (c : ℚ)
    (errs : List String)
    (henum : fs.enum = some evs)
    (hsl : SchemaExtractor.searchLoop env text fs.type fs
      (SchemaExtractor.build_search_patterns field_name fs.description fs.type
        fs.pattern) = (some v, c, errs))
    (htruthy : SchemaExtractor.pyTruthy v = true)
    (hne : evs.isEmpty = false)
    (hnotmem : evs.any (fun e => SchemaExtractor.Value.pyEq v e) = false) :
    (SchemaExtractor.extract_field env text field_name fs).value = none ∧
    (SchemaExtractor.extract_field env text field_name fs).valid = false ∧
    SchemaExtractor.enumErrMsg v evs ∈
      (SchemaExtractor.extract_field env text field_name fs).errors := by
  unfold SchemaExtractor.extract_field
  rw [hsl]
  unfold SchemaExtractor.extractFieldRest
  simp only [SchemaExtractor.enumCheck, henum, htruthy, hne, hnotmem]
  simp

/-- Witness for the amended C3 at the concrete enum-violating input of
the counterexample. -/
theorem C3_enum_violation_discards_value_witness :
    (SchemaExtractor.extract_field ⟨fun _ _ => some "XYZ", fun _ => none⟩ "t"
      "currency" { type := "string", enum := some [.vStr "USD", .vStr "EUR"] }).value
        = none ∧
    (SchemaExtractor.extract_field ⟨fun _ _ => some "XYZ", fun _ => none⟩ "t"
      "currency" { type := "string", enum := some [.vStr "USD", .vStr "EUR"] }).valid
        = false ∧
    SchemaExtractor.enumErrMsg (.vStr "XYZ") [.vStr "USD", .vStr "EUR"] ∈
      (SchemaExtractor.extract_field ⟨fun _ _ => some "XYZ", fun _ => none⟩ "t"
        "currency" { type := "string", enum := some [.vStr "USD", .vStr "EUR"] }).errors :=
  C3_enum_violation_discards_value ⟨fun _ _ => some "XYZ", fun _ => none⟩ "t"
    "currency" { type := "string", enum := some [.vStr "USD", .vStr "EUR"] }
    [.vStr "USD", .vStr "EUR"] (.vStr "XYZ") (9/10) [] rfl rfl rfl rfl rfl

/-- C4: a required property for which no candidate pattern produces a
type-valid match comes back invalid, with a null value and a non-empty
error list containing the required-field message. -/
theorem C4_required_field_not_found (env : SchemaExtractor.SEnv) (text : String)
    (schema : SchemaExtractor.Schema) (fn : String)
    (fs : SchemaExtractor.FieldSchema)
    (hprop : (fn, fs) ∈ schema.properties)
    (hreq : fn ∈ schema.required)
    (hnomatch : ∀ p w, (p, w) ∈ SchemaExtractor.build_search_patterns fn
        fs.description fs.type fs.pattern →
      ∀ s, env.reSearch p text = some s →
        SchemaExtractor.validate_value env (pyStrip s) fs.type fs = none) :
    ∃ r, (fn, r) ∈ SchemaExtractor.extract env text schema ∧
      r.valid = false ∧ r.value = none ∧
      SchemaExtractor.requiredMsg fn ∈ r.errors ∧ r.errors ≠ [] := by
  rcases hsl : SchemaExtractor.searchLoop env text fs.type fs
    (SchemaExtractor.build_search_patterns fn fs.description fs.type fs.pattern)
    with ⟨v0, c0, e0⟩
  have hv0 : v0 = none := by
    have := searchLoop_value_none env text fs.type fs _ hnomatch
    rw [hsl] at this; exact this
  subst hv0
  have hfv : (SchemaExtractor.extract_field env text fn fs).value = none := by
    unfold SchemaExtractor.extract_field
    rw [hsl]
    unfold SchemaExtractor.extractFieldRest
    simp [enumCheck_none]
  have hcond : fn ∈ schema.required ∧
      SchemaExtractor.pyTruthyOpt (SchemaExtractor.extract_field env text fn
        fs).value = false := ⟨hreq, by rw [hfv]; rfl⟩
  refine ⟨{ SchemaExtractor.extract_field env text fn fs with
      valid := false,
      errors := (SchemaExtractor.extract_field env text fn fs).errors ++
        [SchemaExtractor.requiredMsg fn] }, ?_, rfl, hfv, ?_, ?_⟩
  · exact List.mem_map.mpr ⟨(fn, fs), hprop, by
      simp only [SchemaExtractor.extract]
      rw [if_pos hcond]⟩
  · exact List.mem_append_right _ (List.mem_singleton_self _)
  · simp

/-- Witness for C4: a matcher that never matches, a schema requiring
`total`. -/
theorem C4_required_field_not_found_witness :
    ∃ r, ("total", r) ∈ SchemaExtractor.extract ⟨fun _ _ => none, fun _ => none⟩
        "x" { properties := [("total", {})], required := ["total"] } ∧
      r.valid = false ∧ r.value = none ∧
      SchemaExtractor.requiredMsg "total" ∈ r.errors ∧ r.errors ≠ [] :=
  C4_required_field_not_found ⟨fun _ _ => none, fun _ => none⟩ "x"
    { properties := [("total", {})], required := ["total"] } "total" {}
    (List.mem_singleton_self _) (List.mem_singleton_self _)
    (fun _ _ _ _ hs => Option.noConfusion hs)

/-- The `valid` flag of `_extract_field` is by construction the
conjunction "no errors and value present". -/
theorem extract_field_valid_eq (env : SchemaExtractor.SEnv)
    (text fn : String) (fs : SchemaExtractor.FieldSchema) :
    (SchemaExtractor.extract_field env text fn fs).valid =
      ((SchemaExtractor.extract_field env text fn fs).errors.isEmpty &&
        (SchemaExtractor.extract_field env text fn fs).value.isSome) := rfl

/-- C5: every result `extract` returns satisfies the invariant that a
valid field carries a non-null value and an empty error list. -/
theorem C5_valid_implies_value_present_no_errors (env : SchemaExtractor.SEnv)
    (text : String) (schema : SchemaExtractor.Schema) (fn : String)
    (r : SchemaExtractor.ExtractionResult)
    (hmem : (fn, r) ∈ SchemaExtractor.extract env text schema)
    (hvalid : r.valid = true) :
    r.value ≠ none ∧ r.errors = [] := by
  rcases List.mem_map.mp hmem with ⟨pr, hpr, heq⟩
  simp only [SchemaExtractor.extract] at heq
  split at heq
  · rcases Prod.mk.injEq .. ▸ heq with ⟨hfn, hr⟩
    rw [← hr] at hvalid
    simp at hvalid
  · rcases Prod.mk.injEq .. ▸ heq with ⟨hfn, hr⟩
    rw [← hr] at hvalid ⊢
    rw [extract_field_valid_eq] at hvalid
    rcases Bool.and_eq_true .. ▸ hvalid with ⟨h1, h2⟩
    refine ⟨?_, ?_⟩
    · intro hnone
      rw [hnone] at h2
      simp at h2
    · simpa using h1

/-- Witness for C5: a matcher that always extracts `"abc"` makes the
single string field valid, so its value is present and its error list
is empty. -/
theorem C5_valid_implies_witness :
    (SchemaExtractor.extract_field ⟨fun _ _ => some "abc", fun _ => none⟩ "t" "f"
      {}).value ≠ none ∧
    (SchemaExtractor.extract_field ⟨fun _ _ => some "abc", fun _ => none⟩ "t" "f"
      {}).errors = [] :=
  C5_valid_implies_value_present_no_errors ⟨fun _ _ => some "abc", fun _ => none⟩
    "t" { properties := [("f", {})], required := [] } "f"
    (SchemaExtractor.extract_field ⟨fun _ _ => some "abc", fun _ => none⟩ "t" "f" {})
    (by
      have h : SchemaExtractor.extract ⟨fun _ _ => some "abc", fun _ => none⟩ "t"
          { properties := [("f", {})], required := [] } =
          [("f", SchemaExtractor.extract_field ⟨fun _ _ => some "abc", fun _ => none⟩
            "t" "f" {})] := rfl
      rw [h]
      exact List.mem_singleton_self _)
    rfl

/-- C10: when a pattern match validates but converts to a falsy value
(0, 0.0, False, "", []), the required check of `extract` — which tests
Python truthiness of the value rather than its presence — still marks
the field invalid and appends the required-field error, while the falsy
value itself is retained in the result. -/
theorem C10_falsy_value_fails_required (env : SchemaExtractor.SEnv)
    (text : String) (schema : SchemaExtractor.Schema) (fn : String)
    (fs : SchemaExtractor.FieldSchema) (v : SchemaExtractor.Value)
    (hprop : (fn, fs) ∈ schema.properties)
    (hreq : fn ∈ schema.required)
    (hval : (SchemaExtractor.extract_field env text fn fs).value = some v)
    (hfalsy : SchemaExtractor.pyTruthy v = false) :
    ∃ r, (fn, r) ∈ SchemaExtractor.extract env text schema ∧
      r.value = some v ∧ r.valid = false ∧
      SchemaExtractor.requiredMsg fn ∈ r.errors := by
  have hcond : fn ∈ schema.required ∧
      SchemaExtractor.pyTruthyOpt (SchemaExtractor.extract_field env text fn
        fs).value = false := ⟨hreq, by rw [hval]; exact hfalsy⟩
  refine ⟨{ SchemaExtractor.extract_field env text fn fs with
      valid := false,
      errors := (SchemaExtractor.extract_field env text fn fs).errors ++
        [SchemaExtractor.requiredMsg fn] }, ?_, hval, rfl, ?_⟩
  · exact List.mem_map.mpr ⟨(fn, fs), hprop, by
      simp only [SchemaExtractor.extract]
      rw [if_pos hcond]⟩
  · exact List.mem_append_right _ (List.mem_singleton_self _)

/-- Witness for C10: a matcher extracting `"0"` for a required integer
field — the value converts to the falsy integer 0, the field is marked
invalid with the required-field error, and the 0 is retained. -/
theorem C10_falsy_value_fails_required_witness :
    ∃ r, ("count", r) ∈ SchemaExtractor.extract ⟨fun _ _ => some "0", fun _ => none⟩
        "x" { properties := [("count", { type := "integer" })],
              required := ["count"] } ∧
      r.value = some (.vInt 0) ∧ r.valid = false ∧
      SchemaExtractor.requiredMsg "count" ∈ r.errors :=
  C10_falsy_value_fails_required ⟨fun _ _ => some "0", fun _ => none⟩ "x"
    { properties := [("count", { type := "integer" })], required := ["count"] }
    "count" { type := "integer" } (.vInt 0)
    (List.mem_singleton_self _) (List.mem_singleton_self _) rfl rfl

/-- C6: `_parse_line_items` (i) returns no items for tables with fewer
than two rows, (ii) skips entirely any data row whose cell count
differs from the header row's cell count, and (iii) emits an item only
when a non-empty description was found under a
description/product/item header. -/
theorem C6_line_item_row_filtering :
    (∀ rows : List (List String), rows.length < 2 →
      StructuredOutput.parse_line_items rows = []) ∧
    (∀ (header : List String) (pre post : List (List String)) (row : List String),
      row.length ≠ header.length →
      StructuredOutput.parse_line_items (header :: (pre ++ row :: post)) =
        StructuredOutput.parse_line_items (header :: (pre ++ post))) ∧
    (∀ (rows : List (List String)) (it : StructuredOutput.LineItem),
      it ∈ StructuredOutput.parse_line_items rows →
      ∃ d, it.description = some d ∧ d ≠ "") := by
  refine ⟨?_, ?_, ?_⟩
  · intro rows h
    unfold StructuredOutput.parse_line_items
    rw [if_pos h]
  · intro header pre post row hrow
    have hnone : StructuredOutput.parseRow
        (header.map (fun th => pyLower (pyStrip th))) row = none := by
      unfold StructuredOutput.parseRow
      rw [if_pos (by simpa using hrow)]
    unfold StructuredOutput.parse_line_items
    rw [if_neg (by simp +arith)]
    cases h : pre ++ post with
    | nil =>
      rw [if_pos (by simp [h])]
      simp [List.filterMap_append, hnone, show pre = [] from (List.append_eq_nil.mp h).1,
        show post = [] from (List.append_eq_nil.mp h).2]
    | cons a as =>
      rw [if_neg (by simp [h])]
      rw [← h]
      simp [List.filterMap_append, hnone]
  · intro rows it hmem
    unfold StructuredOutput.parse_line_items at hmem
    split at hmem
    · simp at hmem
    · cases rows with
      | nil => simp at hmem
      | cons header rest =>
        rcases List.mem_filterMap.mp hmem with ⟨row, _, hpr⟩
        unfold StructuredOutput.parseRow at hpr
        split at hpr
        · exact Option.noConfusion hpr
        · unfold StructuredOutput.descGate at hpr
          split at hpr
          case _ item d hdesc =>
            by_cases hd : d ≠ ""
            · rw [if_pos hd] at hpr
              rcases Option.some.inj hpr with hit
              exact ⟨d, by rw [← hit]; exact hdesc, hd⟩
            · rw [if_neg hd] at hpr
              exact Option.noConfusion hpr
          case _ => exact Option.noConfusion hpr

/-- Witness for C6: a one-row table yields nothing; a mismatched
two-cell row under a one-cell header is skipped entirely; the item
parsed from a well-formed row carries its non-empty description. -/
theorem C6_line_item_row_filtering_witness :
    StructuredOutput.parse_line_items [["only"]] = [] ∧
    StructuredOutput.parse_line_items [["item"], ["a", "b"]] =
      StructuredOutput.parse_line_items [["item"]] ∧
    (∃ d, (StructuredOutput.LineItem.mk (some "pen") none none none none
      none).description = some d ∧ d ≠ "") :=
  ⟨C6_line_item_row_filtering.1 [["only"]] (by decide),
   C6_line_item_row_filtering.2.1 ["item"] [] [] ["a", "b"] (by decide),
   C6_line_item_row_filtering.2.2 [["item"], ["pen"]] _ (by decide)⟩

/-- A text containing `"Bill To: Adam Smith"` and
`"Ship Mode: Second Class"` that is preceded by twenty two-word
person-pattern matches, so that `"Adam Smith"` is the twenty-first
extracted entity. -/
def cappedScenarioText : String :=
  "Xy Zw Xy Zw Xy Zw Xy Zw Xy Zw Xy Zw Xy Zw Xy Zw Xy Zw Xy Zw Xy Zw Xy Zw " ++
  "Xy Zw Xy Zw Xy Zw Xy Zw Xy Zw Xy Zw Xy Zw Xy Zw " ++
  "Bill To: Adam Smith\nShip Mode: Second Class"

set_option maxRecDepth 100000 in
/-- C9 (counterexample): `cappedScenarioText` contains both
`"Bill To: Adam Smith"` and `"Ship Mode: Second Class"`, and the
person-pattern scan does extract `"Adam Smith"` (as the twenty-first
entity) — but `extract` returns `entities[:20]`
(semantic_extractor.py line 191), so the returned entities are the
twenty earlier filler matches and `"Adam Smith"` is dropped: the
claim's inclusion does not hold for every text containing the two
substrings. -/
theorem C9_entity_cap_counterexample :
    pyInStr "Bill To: Adam Smith" cappedScenarioText = true ∧
    pyInStr "Ship Mode: Second Class" cappedScenarioText = true ∧
    ((SemanticExtractor.extractEntities cappedScenarioText).any
      (fun e => e.value == "Adam Smith")) = true ∧
    (SemanticExtractor.extract (fun _ _ => none) cappedScenarioText).entities.length
      = 20 ∧
    ((SemanticExtractor.extract (fun _ _ => none)
      cappedScenarioText).entities.any (fun e => e.value == "Adam Smith")) = false := by
  refine ⟨by decide, by decide, by decide, by decide, by decide⟩

/-- C9 (amended): the person entities of `SemanticExtractor.extract`
never contain an excluded section label for any text and any context
oracle — in particular never `"Bill To"` or `"Ship Mode"` — and on the
scenario text `"Bill To: Adam Smith\nShip Mode: Second Class"` itself
the person entity `"Adam Smith"` is reported; inclusion is only
guaranteed up to the cap `entities[:20]`, within which the scenario
text's sole entity falls. -/
theorem C9_person_exclusion_filter :
    (∀ (searchCI : String → String → Option String) (text : String)
      (e : SemanticExtractor.Entity),
      e ∈ (SemanticExtractor.extract searchCI text).entities →
      e.type = "person" →
      e.value ≠ "Bill To" ∧ e.value ≠ "Ship Mode") ∧
    SemanticExtractor.Entity.mk "person" "Adam Smith" (8/10) ∈
      (SemanticExtractor.extract (fun _ _ => none)
        "Bill To: Adam Smith\nShip Mode: Second Class").entities := by
  constructor
  · intro searchCI text e hmem htype
    have hmem1 : e ∈ SemanticExtractor.extractEntities text :=
      List.mem_of_mem_take hmem
    rcases List.mem_flatMap.mp hmem1 with ⟨ep, _, h2⟩
    rcases List.mem_flatMap.mp h2 with ⟨pat, _, h3⟩
    rcases List.mem_filterMap.mp h3 with ⟨m, _, hkeep⟩
    by_cases hc : (ep.1 = "person" &&
        (SemanticExtractor.person_exclusions.contains (pyLower m) ||
          SemanticExtractor.product_words.any (fun w => pyInStr w (pyLower m)))) = true
    · rw [if_pos hc] at hkeep
      exact Option.noConfusion hkeep
    · rw [if_neg hc] at hkeep
      rcases SemanticExtractor.Entity.mk.injEq .. ▸ Option.some.inj hkeep
        with ⟨hty, hval, _⟩
      rw [hty, htype] at hc
      rw [show (decide ("person" = "person")) = true from by decide,
        Bool.true_and, Bool.not_eq_true] at hc
      have hexcl :
          SemanticExtractor.person_exclusions.contains (pyLower m) = false :=
        (Bool.or_eq_false_iff.mp hc).1
      constructor
      · intro hbt
        rw [show m = "Bill To" from hval.trans hbt] at hexcl
        exact absurd hexcl (by decide)
      · intro hsm
        rw [show m = "Ship Mode" from hval.trans hsm] at hexcl
        exact absurd hexcl (by decide)
  · rw [show (SemanticExtractor.extract (fun _ _ => none)
        "Bill To: Adam Smith\nShip Mode: Second Class").entities =
      [SemanticExtractor.Entity.mk "person" "Adam Smith" (8/10)] from rfl]
    exact List.mem_singleton_self _

/-- Witness for C9's universal part, applied to the Adam Smith entity
the scenario text produces. -/
theorem C9_person_exclusion_filter_witness :
    ("Adam Smith" : String) ≠ "Bill To" ∧ ("Adam Smith" : String) ≠ "Ship Mode" :=
  C9_person_exclusion_filter.1 (fun _ _ => none)
    "Bill To: Adam Smith\nShip Mode: Second Class"
    (SemanticExtractor.Entity.mk "person" "Adam Smith" (8/10))
    C9_person_exclusion_filter.2 rfl

end Nanonets
